import Mathlib

/-!
Verification of the pirate-souls game-logic core.

Shallow embedding of the pure game-logic parts of the repository:

* `src/src/controllers/PlayerController.js` — the teleport/boost stamina
  state machine (`PlayerController.update`), embedded over `ℚ` since the
  update uses only field arithmetic, `min`/`max` and comparisons.
* `src/src/core/SpriteStack.js` — `drawShadow`'s shadow-length/offset math
  and `Sun.getShadowOffset`, over `ℝ`.
* `src/src/core/Camera.js` and `src/src/game/Camera.js` — the two camera
  coordinate transformations, over `ℝ`.
* `src/src/core/ShadowManager.js` — `toggleShadows`.

The embeddings keep the source's field names, constants and statement
order.  Visual-effect state (bubbles, cannonball objects, Phaser scene
handles) is omitted: it never feeds back into the fields the theorems
speak about.  The entity's `x`/`y` position update (`teleportPolar`)
needs trigonometry and is modelled separately over `ℝ`; the rational
state machine records *that* a teleport happened as a boolean output.
-/

namespace PirateSouls

/-- The input snapshot handed to `PlayerController.update`
(`inputState` in the source). -/
structure InputState where
  boostTeleport : Bool
  forward : Bool
  backward : Bool
  turnLeft : Bool
  turnRight : Bool
  leftMouse : Bool
  rightMouse : Bool
deriving DecidableEq

/-- Controller + entity state touched by `PlayerController.update`.
Fields `speed`, `rotation`, `maxSpeed`, `acceleration`, `rotationSpeed`
belong to the attached entity (`this.entity`); the rest are the
controller's own fields from the constructor. -/
structure PCState where
  boostActive : Bool
  previousBoostActive : Bool
  boostCooldown : ℚ
  stamina : ℚ
  staminaLocked : Bool
  spacePressTime : ℚ
  tiltAmount : ℚ
  fireCooldownLeft : ℚ
  fireCooldownRight : ℚ
  firingLeft : Bool
  firingRight : Bool
  speed : ℚ
  rotation : ℚ
  maxSpeed : ℚ
  acceleration : ℚ
  rotationSpeed : ℚ
deriving DecidableEq

/-- Constructor: this.maxStamina = 100. -/
def maxStamina : ℚ := 100
/-- Constructor: this.staminaRegenRate = 0.5. -/
def staminaRegenRate : ℚ := 1/2
/-- Constructor: this.boostStaminaCost = 1.0. -/
def boostStaminaCost : ℚ := 1
/-- Constructor: this.teleportStaminaCost = 30.0. -/
def teleportStaminaCost : ℚ := 30
/-- Constructor: this.maxBoostCooldown = 60. -/
def maxBoostCooldown : ℚ := 60
/-- Constructor: this.maxTeleportHold = 45. -/
def maxTeleportHold : ℚ := 45
/-- Constructor: this.maxTilt = 1.0. -/
def maxTilt : ℚ := 1
/-- Constructor: this.tiltSpeed = 0.2. -/
def tiltSpeed : ℚ := 1/5
/-- Constructor: this.fireRate = 15. -/
def fireRate : ℚ := 15
/-- The 60 fps frame time `16.67` used to normalise `delta`. -/
def deltaBase : ℚ := 1667/100

/-- JavaScript's `%` (remainder, truncating toward zero) on rationals. -/
def jsRem (a b : ℚ) : ℚ :=
  a - b * (if 0 ≤ a / b then (⌊a / b⌋ : ℚ) else (⌈a / b⌉ : ℚ))

/-- Source lines 79–129: space-bar handling.  Returns the new state and
whether `teleportPolar(angle, this.teleportDistance)` was executed.
JavaScript truthiness: `!this.boostCooldown` holds exactly when
`boostCooldown` equals `0`. -/
def stepSpace (s : PCState) (i : InputState) (dF : ℚ) : PCState × Bool :=
  if i.boostTeleport then
    let s := { s with spacePressTime := s.spacePressTime + dF }
    if s.staminaLocked = false ∧ 0 < s.stamina ∧ s.boostCooldown ≤ 0 then
      let s := { s with boostActive := true,
                        stamina := s.stamina - boostStaminaCost * dF }
      if s.stamina ≤ 0 then
        ({ s with boostActive := false, boostCooldown := maxBoostCooldown,
                  staminaLocked := true }, false)
      else (s, false)
    else ({ s with boostActive := false }, false)
  else
    if 0 < s.spacePressTime ∧ s.spacePressTime ≤ maxTeleportHold ∧
        s.staminaLocked = false ∧ s.boostCooldown = 0 then
      -- teleportPolar moves only entity.x / entity.y (modelled over ℝ below)
      let s :=
        if teleportStaminaCost ≤ s.stamina then
          { s with stamina := s.stamina - teleportStaminaCost }
        else
          { s with stamina := 0, staminaLocked := true }
      ({ s with spacePressTime := 0, boostActive := false }, true)
    else
      ({ s with spacePressTime := 0, boostActive := false }, false)

/-- Source lines 131–162: ZQSD movement, rotation and tilt. -/
def stepMove (s : PCState) (i : InputState) (dF : ℚ) : PCState :=
  let s :=
    if i.forward then { s with speed := s.speed + s.acceleration * dF }
    else if i.backward then { s with speed := s.speed - s.acceleration * dF }
    else s
  if i.turnLeft then
    let r := jsRem (s.rotation - s.rotationSpeed * dF) 360
    let r := if r < 0 then r + 360 else r
    { s with rotation := r,
             tiltAmount := min maxTilt (s.tiltAmount + tiltSpeed * dF) }
  else if i.turnRight then
    { s with rotation := jsRem (s.rotation + s.rotationSpeed * dF) 360,
             tiltAmount := max (-maxTilt) (s.tiltAmount - tiltSpeed * dF) }
  else if 0 < s.tiltAmount then
    { s with tiltAmount := max 0 (s.tiltAmount - tiltSpeed * dF) }
  else if s.tiltAmount < 0 then
    { s with tiltAmount := min 0 (s.tiltAmount + tiltSpeed * dF) }
  else s

/-- Source lines 164–171: stamina regeneration and unlock. -/
def stepRegen (s : PCState) (dF : ℚ) : PCState :=
  if s.boostActive = false ∧ s.stamina < maxStamina then
    let st := min maxStamina (s.stamina + staminaRegenRate * dF)
    { s with stamina := st,
             staminaLocked := if maxStamina ≤ st then false else s.staminaLocked }
  else s

/-- Source lines 173–176: boost cooldown countdown. -/
def stepCooldown (s : PCState) (dF : ℚ) : PCState :=
  if 0 < s.boostCooldown then { s with boostCooldown := s.boostCooldown - dF }
  else s

/-- Source lines 178–182: boost speed multiplier, capped at `2 * maxSpeed`. -/
def stepBoostEffect (s : PCState) : PCState :=
  if s.boostActive then
    { s with speed := min (s.speed * (9/5)) (s.maxSpeed * 2) }
  else s

/-- Source lines 184–193: the final speed cap. -/
def stepCap (s : PCState) : PCState :=
  let normalMaxSpeed := if s.boostActive then s.maxSpeed * (3/2) else s.maxSpeed
  { s with speed := max (min s.speed normalMaxSpeed) (-normalMaxSpeed * (3/5)) }

/-- Source lines 195–221: weapon firing state and cooldowns. -/
def stepFire (s : PCState) (i : InputState) (dF : ℚ) : PCState :=
  let s :=
    if i.leftMouse ∧ s.fireCooldownLeft ≤ 0 then
      { s with firingLeft := true, fireCooldownLeft := fireRate }
    else { s with firingLeft := false }
  let s :=
    if i.rightMouse ∧ s.fireCooldownRight ≤ 0 then
      { s with firingRight := true, fireCooldownRight := fireRate }
    else { s with firingRight := false }
  let s :=
    if 0 < s.fireCooldownLeft then
      { s with fireCooldownLeft := s.fireCooldownLeft - dF }
    else s
  if 0 < s.fireCooldownRight then
    { s with fireCooldownRight := s.fireCooldownRight - dF }
  else s

/-- One `PlayerController.update(inputState, delta)` call (entity
attached).  Returns the new state and whether a teleport was executed
this step. -/
def step (s : PCState) (i : InputState) (delta : ℚ) : PCState × Bool :=
  let dF := delta / deltaBase
  let r := stepSpace s i dF
  let s := stepMove r.1 i dF
  let s := stepRegen s dF
  let s := stepCooldown s dF
  let s := stepCap (stepBoostEffect s)
  let s := stepFire s i dF
  ({ s with previousBoostActive := s.boostActive }, r.2)

/-- The controller's constructor state attached to a fresh entity
(entity fields parameterised; `Entity`'s defaults are
`speed = 0`, `maxSpeed = 5`, `acceleration = 0.2`, `rotationSpeed = 2`). -/
def initState (rot ms ac rs : ℚ) : PCState where
  boostActive := false
  previousBoostActive := false
  boostCooldown := 0
  stamina := maxStamina
  staminaLocked := false
  spacePressTime := 0
  tiltAmount := 0
  fireCooldownLeft := 0
  fireCooldownRight := 0
  firingLeft := false
  firingRight := false
  speed := 0
  rotation := rot
  maxSpeed := ms
  acceleration := ac
  rotationSpeed := rs

/-- Run a sequence of `update` calls. -/
def run (s : PCState) (l : List (InputState × ℚ)) : PCState :=
  l.foldl (fun s p => (step s p.1 p.2).1) s

/-- States reachable from some initial state by a sequence of updates,
together with the `boostTeleport` flag of the *last* input processed
(`false` at the start, before any input). -/
inductive ReachableWith : PCState → Bool → Prop
  | init (rot ms ac rs : ℚ) : ReachableWith (initState rot ms ac rs) false
  | next {s : PCState} {b : Bool} (i : InputState) (d : ℚ) :
      ReachableWith s b → ReachableWith (step s i d).1 i.boostTeleport

/-! ## Projection lemmas for the update stages -/

theorem stepSpace_speed (s : PCState) (i : InputState) (d : ℚ) :
    (stepSpace s i d).1.speed = s.speed := by
  simp only [stepSpace]
  repeat' split
  all_goals rfl

theorem stepSpace_maxSpeed (s : PCState) (i : InputState) (d : ℚ) :
    (stepSpace s i d).1.maxSpeed = s.maxSpeed := by
  simp only [stepSpace]
  repeat' split
  all_goals rfl

theorem stepMove_stamina (s : PCState) (i : InputState) (d : ℚ) :
    (stepMove s i d).stamina = s.stamina := by
  simp only [stepMove]
  repeat' split
  all_goals rfl

theorem stepMove_staminaLocked (s : PCState) (i : InputState) (d : ℚ) :
    (stepMove s i d).staminaLocked = s.staminaLocked := by
  simp only [stepMove]
  repeat' split
  all_goals rfl

theorem stepMove_boostActive (s : PCState) (i : InputState) (d : ℚ) :
    (stepMove s i d).boostActive = s.boostActive := by
  simp only [stepMove]
  repeat' split
  all_goals rfl

theorem stepMove_spacePressTime (s : PCState) (i : InputState) (d : ℚ) :
    (stepMove s i d).spacePressTime = s.spacePressTime := by
  simp only [stepMove]
  repeat' split
  all_goals rfl

theorem stepMove_maxSpeed (s : PCState) (i : InputState) (d : ℚ) :
    (stepMove s i d).maxSpeed = s.maxSpeed := by
  simp only [stepMove]
  repeat' split
  all_goals rfl

theorem stepRegen_boostActive (s : PCState) (d : ℚ) :
    (stepRegen s d).boostActive = s.boostActive := by
  simp only [stepRegen]
  repeat' split
  all_goals rfl

theorem stepRegen_spacePressTime (s : PCState) (d : ℚ) :
    (stepRegen s d).spacePressTime = s.spacePressTime := by
  simp only [stepRegen]
  repeat' split
  all_goals rfl

theorem stepRegen_speed (s : PCState) (d : ℚ) :
    (stepRegen s d).speed = s.speed := by
  simp only [stepRegen]
  repeat' split
  all_goals rfl

theorem stepRegen_maxSpeed (s : PCState) (d : ℚ) :
    (stepRegen s d).maxSpeed = s.maxSpeed := by
  simp only [stepRegen]
  repeat' split
  all_goals rfl

theorem stepCooldown_stamina (s : PCState) (d : ℚ) :
    (stepCooldown s d).stamina = s.stamina := by
  simp only [stepCooldown]
  repeat' split
  all_goals rfl

theorem stepCooldown_staminaLocked (s : PCState) (d : ℚ) :
    (stepCooldown s d).staminaLocked = s.staminaLocked := by
  simp only [stepCooldown]
  repeat' split
  all_goals rfl

theorem stepCooldown_boostActive (s : PCState) (d : ℚ) :
    (stepCooldown s d).boostActive = s.boostActive := by
  simp only [stepCooldown]
  repeat' split
  all_goals rfl

theorem stepCooldown_spacePressTime (s : PCState) (d : ℚ) :
    (stepCooldown s d).spacePressTime = s.spacePressTime := by
  simp only [stepCooldown]
  repeat' split
  all_goals rfl

theorem stepCooldown_speed (s : PCState) (d : ℚ) :
    (stepCooldown s d).speed = s.speed := by
  simp only [stepCooldown]
  repeat' split
  all_goals rfl

theorem stepCooldown_maxSpeed (s : PCState) (d : ℚ) :
    (stepCooldown s d).maxSpeed = s.maxSpeed := by
  simp only [stepCooldown]
  repeat' split
  all_goals rfl

theorem stepBoostEffect_stamina (s : PCState) :
    (stepBoostEffect s).stamina = s.stamina := by
  simp only [stepBoostEffect]
  repeat' split
  all_goals rfl

theorem stepBoostEffect_staminaLocked (s : PCState) :
    (stepBoostEffect s).staminaLocked = s.staminaLocked := by
  simp only [stepBoostEffect]
  repeat' split
  all_goals rfl

theorem stepBoostEffect_boostActive (s : PCState) :
    (stepBoostEffect s).boostActive = s.boostActive := by
  simp only [stepBoostEffect]
  repeat' split
  all_goals rfl

theorem stepBoostEffect_spacePressTime (s : PCState) :
    (stepBoostEffect s).spacePressTime = s.spacePressTime := by
  simp only [stepBoostEffect]
  repeat' split
  all_goals rfl

theorem stepBoostEffect_maxSpeed (s : PCState) :
    (stepBoostEffect s).maxSpeed = s.maxSpeed := by
  simp only [stepBoostEffect]
  repeat' split
  all_goals rfl

theorem stepCap_stamina (s : PCState) : (stepCap s).stamina = s.stamina := rfl

theorem stepCap_staminaLocked (s : PCState) :
    (stepCap s).staminaLocked = s.staminaLocked := rfl

theorem stepCap_boostActive (s : PCState) :
    (stepCap s).boostActive = s.boostActive := rfl

theorem stepCap_spacePressTime (s : PCState) :
    (stepCap s).spacePressTime = s.spacePressTime := rfl

theorem stepCap_maxSpeed (s : PCState) : (stepCap s).maxSpeed = s.maxSpeed := rfl

theorem stepFire_stamina (s : PCState) (i : InputState) (d : ℚ) :
    (stepFire s i d).stamina = s.stamina := by
  simp only [stepFire]
  repeat' split
  all_goals rfl

theorem stepFire_staminaLocked (s : PCState) (i : InputState) (d : ℚ) :
    (stepFire s i d).staminaLocked = s.staminaLocked := by
  simp only [stepFire]
  repeat' split
  all_goals rfl

theorem stepFire_boostActive (s : PCState) (i : InputState) (d : ℚ) :
    (stepFire s i d).boostActive = s.boostActive := by
  simp only [stepFire]
  repeat' split
  all_goals rfl

theorem stepFire_spacePressTime (s : PCState) (i : InputState) (d : ℚ) :
    (stepFire s i d).spacePressTime = s.spacePressTime := by
  simp only [stepFire]
  repeat' split
  all_goals rfl

theorem stepFire_speed (s : PCState) (i : InputState) (d : ℚ) :
    (stepFire s i d).speed = s.speed := by
  simp only [stepFire]
  repeat' split
  all_goals rfl

theorem stepFire_maxSpeed (s : PCState) (i : InputState) (d : ℚ) :
    (stepFire s i d).maxSpeed = s.maxSpeed := by
  simp only [stepFire]
  repeat' split
  all_goals rfl

/-! ## Composition lemmas for `step` -/

theorem step_snd (s : PCState) (i : InputState) (d : ℚ) :
    (step s i d).2 = (stepSpace s i (d / deltaBase)).2 := rfl

theorem step_stamina (s : PCState) (i : InputState) (d : ℚ) :
    (step s i d).1.stamina =
      (stepRegen (stepMove (stepSpace s i (d / deltaBase)).1 i (d / deltaBase))
        (d / deltaBase)).stamina := by
  simp only [step, stepFire_stamina, stepCap_stamina, stepBoostEffect_stamina,
    stepCooldown_stamina]

theorem step_staminaLocked (s : PCState) (i : InputState) (d : ℚ) :
    (step s i d).1.staminaLocked =
      (stepRegen (stepMove (stepSpace s i (d / deltaBase)).1 i (d / deltaBase))
        (d / deltaBase)).staminaLocked := by
  simp only [step, stepFire_staminaLocked, stepCap_staminaLocked,
    stepBoostEffect_staminaLocked, stepCooldown_staminaLocked]

theorem step_boostActive (s : PCState) (i : InputState) (d : ℚ) :
    (step s i d).1.boostActive = (stepSpace s i (d / deltaBase)).1.boostActive := by
  simp only [step, stepFire_boostActive, stepCap_boostActive,
    stepBoostEffect_boostActive, stepCooldown_boostActive, stepRegen_boostActive,
    stepMove_boostActive]

theorem step_spacePressTime (s : PCState) (i : InputState) (d : ℚ) :
    (step s i d).1.spacePressTime =
      (stepSpace s i (d / deltaBase)).1.spacePressTime := by
  simp only [step, stepFire_spacePressTime, stepCap_spacePressTime,
    stepBoostEffect_spacePressTime, stepCooldown_spacePressTime,
    stepRegen_spacePressTime, stepMove_spacePressTime]

theorem step_speed (s : PCState) (i : InputState) (d : ℚ) :
    (step s i d).1.speed =
      (stepCap (stepBoostEffect (stepCooldown
        (stepRegen (stepMove (stepSpace s i (d / deltaBase)).1 i (d / deltaBase))
          (d / deltaBase)) (d / deltaBase)))).speed := by
  simp only [step, stepFire_speed]

theorem step_maxSpeed (s : PCState) (i : InputState) (d : ℚ) :
    (step s i d).1.maxSpeed = s.maxSpeed := by
  simp only [step, stepFire_maxSpeed, stepCap_maxSpeed, stepBoostEffect_maxSpeed,
    stepCooldown_maxSpeed, stepRegen_maxSpeed, stepMove_maxSpeed,
    stepSpace_maxSpeed]

/-! ## Key facts about the space-bar section -/

theorem stepSpace_teleport_tt (s : PCState) (i : InputState) (d : ℚ)
    (h : (stepSpace s i d).2 = true) :
    i.boostTeleport = false ∧ 0 < s.spacePressTime ∧
      s.spacePressTime ≤ maxTeleportHold ∧ s.staminaLocked = false ∧
      s.boostCooldown = 0 := by
  simp only [stepSpace] at h
  split_ifs at h with h1 h2 h3 h4 <;> simp_all

theorem stepSpace_long_hold (s : PCState) (i : InputState) (d : ℚ)
    (h : maxTeleportHold < s.spacePressTime) :
    (stepSpace s i d).2 = false := by
  simp only [stepSpace]
  split_ifs with h1 h2 h3 h4 <;> first
    | rfl
    | (exfalso; exact absurd h4.2.1 (not_le.mpr h))

theorem stepSpace_released_spt (s : PCState) (i : InputState) (d : ℚ)
    (hb : i.boostTeleport = false) :
    (stepSpace s i d).1.spacePressTime = 0 := by
  simp only [stepSpace, hb, Bool.false_eq_true, if_false]
  split_ifs <;> rfl

theorem stepSpace_locked (s : PCState) (i : InputState) (d : ℚ)
    (h : s.staminaLocked = true) :
    (stepSpace s i d).1.boostActive = false ∧ (stepSpace s i d).2 = false ∧
      (stepSpace s i d).1.staminaLocked = true ∧
      (stepSpace s i d).1.stamina = s.stamina := by
  simp only [stepSpace]
  split_ifs with h1 h2 h3 h4 <;> simp_all

theorem stepSpace_lock_cause (s : PCState) (i : InputState) (d : ℚ)
    (h0 : s.staminaLocked = false)
    (h : (stepSpace s i d).1.staminaLocked = true) :
    (i.boostTeleport = true ∧ 0 < s.stamina ∧
        s.stamina - boostStaminaCost * d ≤ 0) ∨
      ((stepSpace s i d).2 = true ∧ s.stamina < teleportStaminaCost) := by
  simp only [stepSpace] at h ⊢
  split_ifs at h ⊢ with h1 h2 h3 h4 <;> simp_all [not_le]

theorem stepSpace_stamina_le (s : PCState) (i : InputState) (d : ℚ)
    (hd : 0 ≤ d) (h : s.stamina ≤ maxStamina) :
    (stepSpace s i d).1.stamina ≤ maxStamina := by
  simp only [stepSpace, boostStaminaCost, teleportStaminaCost]
  simp only [maxStamina] at h ⊢
  split_ifs <;> simp_all <;> linarith

/-! ## Key facts about regeneration, cooldown and the speed cap -/

theorem stepRegen_stamina_le (s : PCState) (d : ℚ) (h : s.stamina ≤ maxStamina) :
    (stepRegen s d).stamina ≤ maxStamina := by
  simp only [stepRegen]
  split_ifs <;> simp_all [min_le_left]

theorem stepRegen_unlock (s : PCState) (d : ℚ) (h1 : s.staminaLocked = true)
    (h : (stepRegen s d).staminaLocked = false) :
    (stepRegen s d).stamina = maxStamina := by
  simp only [stepRegen] at h ⊢
  split_ifs at h ⊢ with h2 h3 <;> simp_all

theorem stepRegen_locked_mono (s : PCState) (d : ℚ)
    (h : (stepRegen s d).staminaLocked = true) : s.staminaLocked = true := by
  simp only [stepRegen] at h
  split_ifs at h <;> simp_all

theorem stepCap_speed_bounds (s : PCState) (h : 0 ≤ s.maxSpeed) :
    (stepCap s).speed ≤
        (if s.boostActive then s.maxSpeed * (3/2) else s.maxSpeed) ∧
      -(if s.boostActive then s.maxSpeed * (3/2) else s.maxSpeed) * (3/5) ≤
        (stepCap s).speed := by
  have hcap : (0:ℚ) ≤ if s.boostActive then s.maxSpeed * (3/2) else s.maxSpeed := by
    split_ifs <;> nlinarith
  constructor
  · exact max_le (min_le_right _ _) (by nlinarith)
  · exact le_max_right _ _

/-! ## Reachability facts -/

theorem reachableWith_spt_zero (s : PCState) (b : Bool) (h : ReachableWith s b) :
    b = false → s.spacePressTime = 0 := by
  induction h with
  | init rot ms ac rs => intro _; rfl
  | next i d hprev ih =>
      intro hb
      rw [step_spacePressTime]
      exact stepSpace_released_spt _ _ _ hb

theorem step_stamina_le (s : PCState) (i : InputState) (d : ℚ)
    (hd : 0 ≤ d) (h : s.stamina ≤ maxStamina) :
    (step s i d).1.stamina ≤ maxStamina := by
  rw [step_stamina]
  apply stepRegen_stamina_le
  rw [stepMove_stamina]
  exact stepSpace_stamina_le _ _ _ (div_nonneg hd (by norm_num [deltaBase])) h

/-! ## Claim theorems about the stamina state machine -/

/-- C1: in every update sequence, a teleport (`teleportPolar(angle,
teleportDistance)`) executes only at a step where the `boostTeleport`
input goes from held (previous step) to released (this step), the
accumulated `spacePressTime` is strictly positive and at most
`maxTeleportHold = 45`, `staminaLocked` is false and `boostCooldown`
is zero; and holding longer than `maxTeleportHold` never teleports on
release. -/
theorem teleport_only_on_release :
    (∀ (s : PCState) (b : Bool) (i : InputState) (d : ℚ),
        ReachableWith s b → (step s i d).2 = true →
        i.boostTeleport = false ∧ b = true ∧ 0 < s.spacePressTime ∧
          s.spacePressTime ≤ maxTeleportHold ∧ s.staminaLocked = false ∧
          s.boostCooldown = 0) ∧
    (∀ (s : PCState) (i : InputState) (d : ℚ),
        maxTeleportHold < s.spacePressTime → (step s i d).2 = false) := by
  constructor
  · intro s b i d hreach htp
    rw [step_snd] at htp
    obtain ⟨h1, h2, h3, h4, h5⟩ := stepSpace_teleport_tt _ _ _ htp
    refine ⟨h1, ?_, h2, h3, h4, h5⟩
    cases b with
    | false =>
        exfalso
        have h0 := reachableWith_spt_zero s false hreach rfl
        rw [h0] at h2
        exact lt_irrefl 0 h2
    | true => rfl
  · intro s i d h
    rw [step_snd]
    exact stepSpace_long_hold _ _ _ h

/-- A held space bar and nothing else. -/
def heldInput : InputState := ⟨true, false, false, false, false, false, false⟩

/-- No input at all (space bar released). -/
def releasedInput : InputState := ⟨false, false, false, false, false, false, false⟩

/-- The state after one held-space update from the initial state. -/
def afterHold : PCState := (step (initState 0 5 (1/5) 2) heldInput deltaBase).1

theorem teleport_only_on_release_witness :
    releasedInput.boostTeleport = false ∧ true = true ∧
      0 < afterHold.spacePressTime ∧
      afterHold.spacePressTime ≤ maxTeleportHold ∧
      afterHold.staminaLocked = false ∧ afterHold.boostCooldown = 0 :=
  teleport_only_on_release.1 afterHold true releasedInput deltaBase
    (ReachableWith.next heldInput deltaBase (ReachableWith.init 0 5 (1/5) 2))
    (by norm_num [step, stepSpace, stepMove, stepRegen, stepCooldown,
      stepBoostEffect, stepCap, stepFire, initState, heldInput, releasedInput,
      afterHold, maxStamina, staminaRegenRate,
      boostStaminaCost, teleportStaminaCost, maxBoostCooldown, maxTeleportHold,
      maxTilt, tiltSpeed, fireRate, deltaBase, jsRem, min_def, max_def])

/-- C4: while `staminaLocked` is true an update never turns `boostActive`
on and never teleports; `staminaLocked` turns off only at a step where
stamina regenerated to exactly `maxStamina = 100`; and it turns on only
when stamina is depleted to `0` or below by boosting, or by a teleport
executed with stamina below its cost. -/
theorem staminaLocked_state_machine :
    (∀ (s : PCState) (i : InputState) (d : ℚ), s.staminaLocked = true →
        (step s i d).1.boostActive = false ∧ (step s i d).2 = false) ∧
    (∀ (s : PCState) (i : InputState) (d : ℚ), s.staminaLocked = true →
        (step s i d).1.staminaLocked = false →
        (step s i d).1.stamina = maxStamina) ∧
    (∀ (s : PCState) (i : InputState) (d : ℚ), s.staminaLocked = false →
        (step s i d).1.staminaLocked = true →
        (i.boostTeleport = true ∧ 0 < s.stamina ∧
            s.stamina - boostStaminaCost * (d / deltaBase) ≤ 0) ∨
          ((step s i d).2 = true ∧ s.stamina < teleportStaminaCost)) := by
  refine ⟨?_, ?_, ?_⟩
  · intro s i d h
    obtain ⟨hba, htp, _, _⟩ := stepSpace_locked s i (d / deltaBase) h
    refine ⟨?_, ?_⟩
    · rw [step_boostActive]; exact hba
    · rw [step_snd]; exact htp
  · intro s i d h hunlock
    rw [step_staminaLocked] at hunlock
    rw [step_stamina]
    obtain ⟨_, _, hlk, _⟩ := stepSpace_locked s i (d / deltaBase) h
    have hlk2 : (stepMove (stepSpace s i (d / deltaBase)).1 i
        (d / deltaBase)).staminaLocked = true := by
      rw [stepMove_staminaLocked]; exact hlk
    exact stepRegen_unlock _ _ hlk2 hunlock
  · intro s i d h hlock
    rw [step_staminaLocked] at hlock
    have h2 := stepRegen_locked_mono _ _ hlock
    rw [stepMove_staminaLocked] at h2
    rw [step_snd]
    exact stepSpace_lock_cause s i (d / deltaBase) h h2

/-- A locked state with partially regenerated stamina. -/
def lockedState : PCState :=
  { initState 0 5 (1/5) 2 with staminaLocked := true, stamina := 199/2 }

/-- An unlocked state with almost no stamina left. -/
def lowStamState : PCState := { initState 0 5 (1/5) 2 with stamina := 1/2 }

theorem staminaLocked_state_machine_witness :
    ((step lockedState heldInput deltaBase).1.boostActive = false ∧
      (step lockedState heldInput deltaBase).2 = false) ∧
    (step lockedState releasedInput deltaBase).1.stamina = maxStamina ∧
    ((heldInput.boostTeleport = true ∧ 0 < lowStamState.stamina ∧
        lowStamState.stamina - boostStaminaCost * (deltaBase / deltaBase) ≤ 0) ∨
      ((step lowStamState heldInput deltaBase).2 = true ∧
        lowStamState.stamina < teleportStaminaCost)) :=
  ⟨staminaLocked_state_machine.1 lockedState heldInput deltaBase rfl,
   staminaLocked_state_machine.2.1 lockedState releasedInput deltaBase rfl
     (by norm_num [step, stepSpace, stepMove, stepRegen, stepCooldown,
      stepBoostEffect, stepCap, stepFire, initState, heldInput, releasedInput,
      afterHold, lockedState, lowStamState, maxStamina, staminaRegenRate,
      boostStaminaCost, teleportStaminaCost, maxBoostCooldown, maxTeleportHold,
      maxTilt, tiltSpeed, fireRate, deltaBase, jsRem, min_def, max_def]),
   staminaLocked_state_machine.2.2 lowStamState heldInput deltaBase rfl
     (by norm_num [step, stepSpace, stepMove, stepRegen, stepCooldown,
      stepBoostEffect, stepCap, stepFire, initState, heldInput, releasedInput,
      afterHold, lockedState, lowStamState, maxStamina, staminaRegenRate,
      boostStaminaCost, teleportStaminaCost, maxBoostCooldown, maxTeleportHold,
      maxTilt, tiltSpeed, fireRate, deltaBase, jsRem, min_def, max_def])⟩

/-- C9: starting from the initial state (stamina = maxStamina = 100),
after any sequence of updates with positive deltas the stamina never
exceeds `maxStamina`. -/
theorem stamina_never_exceeds_max (rot ms ac rs : ℚ)
    (l : List (InputState × ℚ)) (hl : ∀ p ∈ l, 0 < p.2) :
    (run (initState rot ms ac rs) l).stamina ≤ maxStamina := by
  have key : ∀ (t : List (InputState × ℚ)) (s : PCState), (∀ p ∈ t, 0 < p.2) →
      s.stamina ≤ maxStamina → (run s t).stamina ≤ maxStamina := by
    intro t
    induction t with
    | nil => intro s _ h; exact h
    | cons p t ih =>
        intro s ht h
        exact ih _ (fun q hq => ht q (List.mem_cons_of_mem _ hq))
          (step_stamina_le s p.1 p.2 (le_of_lt (ht p (List.mem_cons_self p t))) h)
  exact key l _ hl (le_refl maxStamina)

theorem stamina_never_exceeds_max_witness :
    (run (initState 0 5 (1/5) 2) [(heldInput, deltaBase)]).stamina ≤
      maxStamina :=
  stamina_never_exceeds_max 0 5 (1/5) 2 [(heldInput, deltaBase)]
    (by
      intro p hp
      simp only [List.mem_singleton] at hp
      subst hp
      norm_num [deltaBase])

/-- C7: after any update (entity attached, positive delta, non-negative
entity maxSpeed) the entity speed is at most `1.5 * maxSpeed` when boost
is active and `maxSpeed` otherwise, and at least `-0.6` times that same
forward cap. -/
theorem speed_capped (s : PCState) (i : InputState) (d : ℚ)
    (hms : 0 ≤ s.maxSpeed) (hd : 0 < d) :
    (step s i d).1.speed ≤
        (if (step s i d).1.boostActive then s.maxSpeed * (3/2) else s.maxSpeed) ∧
      -(if (step s i d).1.boostActive then s.maxSpeed * (3/2) else s.maxSpeed) *
          (3/5) ≤ (step s i d).1.speed := by
  have hms' : 0 ≤ (stepBoostEffect (stepCooldown (stepRegen (stepMove
      (stepSpace s i (d / deltaBase)).1 i (d / deltaBase)) (d / deltaBase))
      (d / deltaBase))).maxSpeed := by
    rw [stepBoostEffect_maxSpeed, stepCooldown_maxSpeed, stepRegen_maxSpeed,
      stepMove_maxSpeed, stepSpace_maxSpeed]
    exact hms
  have hbounds := stepCap_speed_bounds _ hms'
  rw [stepBoostEffect_maxSpeed, stepCooldown_maxSpeed, stepRegen_maxSpeed,
    stepMove_maxSpeed, stepSpace_maxSpeed, stepBoostEffect_boostActive,
    stepCooldown_boostActive, stepRegen_boostActive, stepMove_boostActive]
    at hbounds
  rw [step_speed, step_boostActive]
  exact hbounds

theorem speed_capped_witness :
    (step (initState 0 5 (1/5) 2) heldInput deltaBase).1.speed ≤
        (if (step (initState 0 5 (1/5) 2) heldInput deltaBase).1.boostActive
          then (initState 0 5 (1/5) 2).maxSpeed * (3/2)
          else (initState 0 5 (1/5) 2).maxSpeed) ∧
      -(if (step (initState 0 5 (1/5) 2) heldInput deltaBase).1.boostActive
          then (initState 0 5 (1/5) 2).maxSpeed * (3/2)
          else (initState 0 5 (1/5) 2).maxSpeed) * (3/5) ≤
        (step (initState 0 5 (1/5) 2) heldInput deltaBase).1.speed :=
  speed_capped (initState 0 5 (1/5) 2) heldInput deltaBase
    (by norm_num [initState]) (by norm_num [deltaBase])

/-! ## ShadowManager (src/src/core/ShadowManager.js) -/

/-- State of the core `ShadowManager`: the `enabled` flag and the list of
registered objects (identified abstractly). -/
structure ShadowMgr where
  enabled : Bool
  gameObjects : List Nat
deriving DecidableEq

/-- Source lines 80–83: `toggleShadows()` sets `this.enabled = true` and
returns `true` ("Toggle functionality is disabled, shadows are always
enabled"). -/
def toggleShadows (m : ShadowMgr) : ShadowMgr × Bool :=
  ({ m with enabled := true }, true)

/-- Iterate `toggleShadows` on the state `n` times. -/
def toggleIter : Nat → ShadowMgr → ShadowMgr
  | 0, m => m
  | n + 1, m => (toggleShadows (toggleIter n m)).1

theorem toggleIter_succ (n : ℕ) (m : ShadowMgr) :
    toggleIter (n + 1) m = { m with enabled := true } := by
  induction n with
  | zero => rfl
  | succ k ih =>
      have h : toggleIter (k + 1 + 1) m = (toggleShadows (toggleIter (k + 1) m)).1 :=
        rfl
      rw [h, ih]
      rfl

/-- C10: `toggleShadows` always returns `true` and leaves `enabled = true`;
calling it `n ≥ 1` times equals calling it once. -/
theorem toggleShadows_always_true :
    (∀ m : ShadowMgr,
        (toggleShadows m).2 = true ∧ (toggleShadows m).1.enabled = true) ∧
    (∀ (m : ShadowMgr) (n : ℕ), 1 ≤ n → toggleIter n m = toggleIter 1 m) := by
  constructor
  · intro m; exact ⟨rfl, rfl⟩
  · intro m n hn
    obtain ⟨k, rfl⟩ : ∃ k, n = k + 1 := ⟨n - 1, by omega⟩
    rw [toggleIter_succ]
    rfl

theorem toggleShadows_always_true_witness :
    toggleIter 3 ⟨false, [2]⟩ = toggleIter 1 ⟨false, [2]⟩ :=
  toggleShadows_always_true.2 ⟨false, [2]⟩ 3 (by norm_num)

/-! ## Shadow geometry (src/src/core/SpriteStack.js), over ℝ -/

noncomputable section

/-- Shadow length in `drawShadow`:
`baseShadowLength = this.height * (1.0 - verticalFactor) * 2.5` with
`verticalFactor = sunVerticalAngle / 90.0`. -/
def baseShadowLength (height v : ℝ) : ℝ := height * (1 - v / 90) * (5/2)

/-- Shadow displacement `(shadowOffsetX, shadowOffsetY)` in `drawShadow`:
`-sin(horizontalRad) * baseShadowLength` and
`-cos(horizontalRad) * baseShadowLength` with
`horizontalRad = sunHorizontalAngle * PI / 180`. -/
def drawShadowOffset (height hAngle v : ℝ) : ℝ × ℝ :=
  (-Real.sin (hAngle * (Real.pi / 180)) * baseShadowLength height v,
   -Real.cos (hAngle * (Real.pi / 180)) * baseShadowLength height v)

/-- The unit shadow direction, a function of the horizontal sun angle
alone. -/
def shadowDir (hAngle : ℝ) : ℝ × ℝ :=
  (-Real.sin (hAngle * (Real.pi / 180)), -Real.cos (hAngle * (Real.pi / 180)))

/-- Sun.getShadowOffset: offset `(0, 0)` when the sun direction's
z-component is at least `0.99`, otherwise
`-direction * (objectHeight / max(0.1, directionZ))`. -/
def getShadowOffset (dirX dirY dirZ objectHeight : ℝ) : ℝ × ℝ :=
  if (99/100 : ℝ) ≤ dirZ then (0, 0)
  else
    (-dirX * (objectHeight / max (1/10) dirZ),
     -dirY * (objectHeight / max (1/10) dirZ))

/-- C2: for sprite height > 0 and sun vertical angles in [0, 90], the
shadow length is non-increasing in the vertical angle, strictly
decreasing where it is nonzero, maximal at angle 0 (sun at horizon) and
zero at angle 90 (sun overhead); and `Sun.getShadowOffset` returns the
offset (0, 0) whenever the sun direction's z-component is at least
0.99. -/
theorem shadow_length_sun_angle (height v v1 v2 dX dY dZ oh : ℝ)
    (hh : 0 < height) (hv0 : 0 ≤ v) (hv90 : v ≤ 90)
    (h10 : 0 ≤ v1) (h12 : v1 ≤ v2) (h290 : v2 ≤ 90) :
    baseShadowLength height v2 ≤ baseShadowLength height v1 ∧
      (v1 < v2 → baseShadowLength height v1 ≠ 0 →
        baseShadowLength height v2 < baseShadowLength height v1) ∧
      baseShadowLength height v ≤ baseShadowLength height 0 ∧
      baseShadowLength height 90 = 0 ∧
      ((99/100 : ℝ) ≤ dZ → getShadowOffset dX dY dZ oh = (0, 0)) := by
  refine ⟨?_, ?_, ?_, ?_, ?_⟩
  · have hm := mul_nonneg hh.le (sub_nonneg.mpr h12)
    unfold baseShadowLength
    nlinarith [hm]
  · intro hlt _
    have hm := mul_pos hh (sub_pos.mpr hlt)
    unfold baseShadowLength
    nlinarith [hm]
  · have hm := mul_nonneg hh.le hv0
    unfold baseShadowLength
    nlinarith [hm]
  · unfold baseShadowLength
    norm_num
  · intro hz
    simp only [getShadowOffset]
    rw [if_pos hz]

theorem shadow_length_sun_angle_witness :
    baseShadowLength 10 60 ≤ baseShadowLength 10 30 ∧
      ((30:ℝ) < 60 → baseShadowLength 10 30 ≠ 0 →
        baseShadowLength 10 60 < baseShadowLength 10 30) ∧
      baseShadowLength 10 45 ≤ baseShadowLength 10 0 ∧
      baseShadowLength 10 90 = 0 ∧
      ((99/100 : ℝ) ≤ 1 → getShadowOffset 0 0 1 30 = (0, 0)) :=
  shadow_length_sun_angle 10 45 30 60 0 0 1 30 (by norm_num) (by norm_num)
    (by norm_num) (by norm_num) (by norm_num) (by norm_num)

/-- C3: the shadow displacement of `drawShadow` is `baseShadowLength`
times the unit vector `(-sin h°, -cos h°)`: its Euclidean length equals
the base shadow length and its direction is a function of the horizontal
sun angle alone. -/
theorem shadow_displacement (height hAngle v : ℝ)
    (hh : 0 ≤ height) (hv0 : 0 ≤ v) (hv90 : v ≤ 90) :
    drawShadowOffset height hAngle v =
        (baseShadowLength height v * (shadowDir hAngle).1,
         baseShadowLength height v * (shadowDir hAngle).2) ∧
      Real.sqrt ((drawShadowOffset height hAngle v).1 ^ 2 +
          (drawShadowOffset height hAngle v).2 ^ 2) =
        baseShadowLength height v := by
  have hL : 0 ≤ baseShadowLength height v := by
    have h1 : (0:ℝ) ≤ 1 - v / 90 := by linarith
    have hm := mul_nonneg hh h1
    unfold baseShadowLength
    nlinarith [hm]
  constructor
  · simp only [drawShadowOffset, shadowDir, Prod.mk.injEq]
    constructor <;> ring
  · have hpy := Real.sin_sq_add_cos_sq (hAngle * (Real.pi / 180))
    have hsq : (drawShadowOffset height hAngle v).1 ^ 2 +
        (drawShadowOffset height hAngle v).2 ^ 2 =
          (baseShadowLength height v) ^ 2 := by
      simp only [drawShadowOffset]
      linear_combination (baseShadowLength height v) ^ 2 * hpy
    rw [hsq, Real.sqrt_sq hL]

theorem shadow_displacement_witness :
    drawShadowOffset 10 45 30 =
        (baseShadowLength 10 30 * (shadowDir 45).1,
         baseShadowLength 10 30 * (shadowDir 45).2) ∧
      Real.sqrt ((drawShadowOffset 10 45 30).1 ^ 2 +
          (drawShadowOffset 10 45 30).2 ^ 2) =
        baseShadowLength 10 30 :=
  shadow_displacement 10 45 30 (by norm_num) (by norm_num) (by norm_num)

/-! ## Cameras (src/src/core/Camera.js and src/src/game/Camera.js) -/

/-- Core camera state: world position, viewport size and rotation in
degrees. -/
structure Cam where
  x : ℝ
  y : ℝ
  width : ℝ
  height : ℝ
  rotation : ℝ

/-- Core Camera.worldToScreen: offset from the camera position, rotation
applied when nonzero, then centred on the screen. -/
def worldToScreen (c : Cam) (p : ℝ × ℝ) : ℝ × ℝ :=
  let offX := p.1 - c.x
  let offY := p.2 - c.y
  let rot :=
    if c.rotation = 0 then (offX, offY)
    else
      (offX * Real.cos (c.rotation * (Real.pi / 180)) -
         offY * Real.sin (c.rotation * (Real.pi / 180)),
       offX * Real.sin (c.rotation * (Real.pi / 180)) +
         offY * Real.cos (c.rotation * (Real.pi / 180)))
  (c.width / 2 + rot.1, c.height / 2 + rot.2)

/-- Core Camera.screenToWorld: offset from the screen centre, reverse
rotation applied when nonzero, then translated to world coordinates. -/
def screenToWorld (c : Cam) (p : ℝ × ℝ) : ℝ × ℝ :=
  let offX := p.1 - c.width / 2
  let offY := p.2 - c.height / 2
  let rot :=
    if c.rotation = 0 then (offX, offY)
    else
      (offX * Real.cos (-c.rotation * (Real.pi / 180)) -
         offY * Real.sin (-c.rotation * (Real.pi / 180)),
       offX * Real.sin (-c.rotation * (Real.pi / 180)) +
         offY * Real.cos (-c.rotation * (Real.pi / 180)))
  (c.x + rot.1, c.y + rot.2)

/-- C5: for every camera state the core camera's two coordinate
transformations are mutual inverses (over exact real arithmetic). -/
theorem camera_transforms_inverse (c : Cam) (wx wy sx sy : ℝ) :
    screenToWorld c (worldToScreen c (wx, wy)) = (wx, wy) ∧
      worldToScreen c (screenToWorld c (sx, sy)) = (sx, sy) := by
  have hpy := Real.sin_sq_add_cos_sq (c.rotation * (Real.pi / 180))
  constructor
  · by_cases h : c.rotation = 0
    · simp only [worldToScreen, screenToWorld, if_pos h, Prod.mk.injEq]
      constructor <;> ring
    · simp only [worldToScreen, screenToWorld, if_neg h, neg_mul,
        Real.cos_neg, Real.sin_neg, Prod.mk.injEq]
      constructor
      · linear_combination (wx - c.x) * hpy
      · linear_combination (wy - c.y) * hpy
  · by_cases h : c.rotation = 0
    · simp only [worldToScreen, screenToWorld, if_pos h, Prod.mk.injEq]
      constructor <;> ring
    · simp only [worldToScreen, screenToWorld, if_neg h, neg_mul,
        Real.cos_neg, Real.sin_neg, Prod.mk.injEq]
      constructor
      · linear_combination (sx - c.width / 2) * hpy
      · linear_combination (sy - c.height / 2) * hpy

/-- Game camera state: world position, viewport size and the Phaser
camera scroll it writes through to. -/
structure GameCam where
  x : ℝ
  y : ℝ
  width : ℝ
  height : ℝ
  scrollX : ℝ
  scrollY : ℝ

/-- Game Camera.worldToScreen: subtract the Phaser camera scroll. -/
def gameWorldToScreen (c : GameCam) (p : ℝ × ℝ) : ℝ × ℝ :=
  (p.1 - c.scrollX, p.2 - c.scrollY)

/-- Game Camera.screenToWorld: add the Phaser camera scroll. -/
def gameScreenToWorld (c : GameCam) (p : ℝ × ℝ) : ℝ × ℝ :=
  (p.1 + c.scrollX, p.2 + c.scrollY)

/-- C8: with zero camera rotation and the Phaser scroll consistent with
the camera position (`scrollX = x - width/2`, `scrollY = y - height/2`,
as both implementations maintain after `follow` or a manual move), the
two Camera re-implementations compute the same transformations. -/
theorem camera_impls_agree (c : Cam) (g : GameCam) (p q : ℝ × ℝ)
    (hrot : c.rotation = 0)
    (hsx : g.scrollX = c.x - c.width / 2)
    (hsy : g.scrollY = c.y - c.height / 2) :
    gameWorldToScreen g p = worldToScreen c p ∧
      gameScreenToWorld g q = screenToWorld c q := by
  constructor <;>
    simp only [gameWorldToScreen, gameScreenToWorld, worldToScreen,
      screenToWorld, if_pos hrot, hsx, hsy, Prod.mk.injEq] <;>
    constructor <;> ring

theorem camera_impls_agree_witness :
    gameWorldToScreen ⟨10, 20, 800, 600, -390, -280⟩ (3, 4) =
        worldToScreen ⟨10, 20, 800, 600, 0⟩ (3, 4) ∧
      gameScreenToWorld ⟨10, 20, 800, 600, -390, -280⟩ (5, 6) =
        screenToWorld ⟨10, 20, 800, 600, 0⟩ (5, 6) :=
  camera_impls_agree ⟨10, 20, 800, 600, 0⟩ ⟨10, 20, 800, 600, -390, -280⟩
    (3, 4) (5, 6) rfl (by norm_num) (by norm_num)

/-! ## teleportPolar (src/src/controllers/PlayerController.js), over ℝ -/

/-- The entity fields `teleportPolar` can read or write. -/
structure Entity where
  x : ℝ
  y : ℝ
  rotation : ℝ
  speed : ℝ

/-- The controller fields relevant to `teleportPolar`: the attached
entity and the stamina pool. -/
structure SubController where
  entity : Entity
  stamina : ℝ

/-- PlayerController.teleportPolar(angle, distance): move the entity by
`distance` along `entity.rotation + angle` (converted to radians with
DegToRad); stamina accounting happens at the call site, not here. -/
def teleportPolar (c : SubController) (angle dist : ℝ) : SubController :=
  { c with entity := { c.entity with
      x := c.entity.x +
        dist * Real.cos ((c.entity.rotation + angle) * (Real.pi / 180)),
      y := c.entity.y +
        dist * Real.sin ((c.entity.rotation + angle) * (Real.pi / 180)) } }

/-- C6: teleportPolar moves the entity to a point exactly `|distance|`
away, in direction `entity.rotation + angle`, and changes no field other
than the entity's x and y: rotation, speed and the controller's stamina
are untouched. -/
theorem teleportPolar_moves_exactly (c : SubController) (angle dist : ℝ) :
    Real.sqrt (((teleportPolar c angle dist).entity.x - c.entity.x) ^ 2 +
        ((teleportPolar c angle dist).entity.y - c.entity.y) ^ 2) = |dist| ∧
      (teleportPolar c angle dist).entity.x - c.entity.x =
        dist * Real.cos ((c.entity.rotation + angle) * (Real.pi / 180)) ∧
      (teleportPolar c angle dist).entity.y - c.entity.y =
        dist * Real.sin ((c.entity.rotation + angle) * (Real.pi / 180)) ∧
      (teleportPolar c angle dist).entity.rotation = c.entity.rotation ∧
      (teleportPolar c angle dist).entity.speed = c.entity.speed ∧
      (teleportPolar c angle dist).stamina = c.stamina := by
  refine ⟨?_, ?_, ?_, rfl, rfl, rfl⟩
  · have hpy := Real.sin_sq_add_cos_sq ((c.entity.rotation + angle) *
      (Real.pi / 180))
    have hsq : ((teleportPolar c angle dist).entity.x - c.entity.x) ^ 2 +
        ((teleportPolar c angle dist).entity.y - c.entity.y) ^ 2 =
          dist ^ 2 := by
      simp only [teleportPolar]
      linear_combination dist ^ 2 * hpy
    rw [hsq, Real.sqrt_sq_eq_abs]
  · simp only [teleportPolar]
    ring
  · simp only [teleportPolar]
    ring

end

end PirateSouls
